import Mathlib

/-!
Verification development for the AI-Safety-System mobile frontend
(`frontend/src/services/BackgroundSafetyService.ts`, `frontend/src/api/client.ts`,
`frontend/src/screens/SosScreen.tsx`, `MapScreen`, `utils/AudioUtils.ts`).

The TypeScript code is shallowly embedded: every external call (sensor,
network, recorder, notification surface) is resolved by an explicit
environment record (`Env`), each function body is translated statement by
statement, and the externally observable actions of a run are collected as
a list of `Effect`s.  Machine floats are modelled by `ℚ` (all numeric
operations in the embedded code are field operations and order
comparisons on finite values).
-/

/-! ## Data model: accelerometer samples -/

/-- One accelerometer sample `{x, y, z}` as delivered by
`react-native-sensors` to the subscription callbacks. -/
structure Accel where
  x : ℚ
  y : ℚ
  z : ℚ
deriving DecidableEq, Repr

/-- `x*x + y*y + z*z`, the radicand of
`Math.sqrt(x * x + y * y + z * z)` computed in the sensor callbacks of
`BackgroundSafetyService.ts` (line 34) and `MapScreen` (line 142). -/
def Accel.magSq (a : Accel) : ℚ :=
  a.x * a.x + a.y * a.y + a.z * a.z

/-- The trigger test `magnitude > 15` of the sensor callbacks
(`BackgroundSafetyService.ts` line 36, `MapScreen` line 145), expressed on
the radicand: for the nonnegative magnitude, `sqrt s > 15 ↔ s > 225`
(bridged to `Real.sqrt` in the theorem for the trigger-condition claim). -/
def Accel.crossesThreshold (a : Accel) : Bool :=
  decide (225 < a.magSq)

/-- The synthetic no-motion sample `{x: 0, y: 0, z: 0}` that the manual
SOS handlers submit (`SosScreen` line 55, `MapScreen` line 290). -/
def Accel.zero : Accel := ⟨0, 0, 0⟩

/-! ## MotionMonitor small-step machine

`BackgroundSafetyService.ts` lines 24–42: a module-level mutable flag
`isProcessing` guards the subscription callback.  The callback runs
synchronously from its entry to the first `await` (there is no suspension
between the `if (isProcessing) return` check and the `isProcessing = true`
assignment), so a delivered sample either is dropped, opens a cycle, or is
below threshold; a separate event marks the completion of the awaited
`handleEmergencyCheck`, which resets the flag on line 40. -/

/-- Monitor state: the `isProcessing` flag, together with two ghost
counters — `active` counts currently open (non-idle) detection cycles and
`dropped` counts samples discarded by the `if (isProcessing) return`
guard.  There is no queue field: the source keeps no buffer of pending
triggers. -/
structure MonState where
  processing : Bool
  active : ℕ
  dropped : ℕ
deriving DecidableEq, Repr

/-- The monitor before any sample: flag clear, no cycle open. -/
def MonState.init : MonState := ⟨false, 0, 0⟩

/-- Events serialized onto the JS event loop: delivery of an
accelerometer sample to the subscription callback, and completion of the
in-flight `handleEmergencyCheck` (the `isProcessing = false` statement on
line 40). -/
inductive MonEv where
  | sample (a : Accel)
  | finish
deriving DecidableEq, Repr

/-- One event of the monitor, following lines 31–41 of
`BackgroundSafetyService.ts`:
`sample a` — `if (isProcessing) return;` (drop), else compute the
magnitude and, when it exceeds 15, set `isProcessing = true` and open a
cycle; `finish` — the awaited check returned, `isProcessing = false`. -/
def MonState.step (s : MonState) : MonEv → MonState
  | .sample a =>
    if s.processing then
      { s with dropped := s.dropped + 1 }
    else if a.crossesThreshold then
      { s with processing := true, active := s.active + 1 }
    else
      s
  | .finish =>
    if s.processing then
      { s with processing := false, active := s.active - 1 }
    else
      s

/-- The states visited while consuming a list of events. -/
def MonState.trace (s : MonState) : List MonEv → List MonState
  | [] => [s]
  | e :: es => s :: (s.step e).trace es

/-- Invariant tying the ghost counter to the flag: a cycle is open
exactly while `isProcessing` is set. -/
def MonState.inv (s : MonState) : Prop :=
  s.active = if s.processing then 1 else 0

instance (s : MonState) : Decidable s.inv := by
  unfold MonState.inv; infer_instance

/-! ## Observable effects and the external environment -/

/-- Externally observable actions of the embedded functions.  Network
effects record the accelerometer payload where the source sends one. -/
inductive Effect where
  | consoleLog
  | consoleErr
  | netMotion (accel : Accel)
  | netAudio
  | netDetect (accel : Accel)
  | permRequest
  | micInit
  | micStart
  | micStop
  | updateNotif
  | alertDialog
deriving DecidableEq, Repr

/-- Effects the user can see: the background-service notification update
and a React-Native alert dialog.  Console output and the network/mic
calls are not user-visible. -/
def Effect.userVisible : Effect → Bool
  | .updateNotif => true
  | .alertDialog => true
  | _ => false

/-- Response of `SafetyService.checkMotion` (`api/SafetyService.ts`). -/
structure MotionResp where
  anomaly_score : ℚ
  anomaly_detected : Bool
deriving DecidableEq, Repr

/-- Response of `SafetyService.analyzeAudio` (`api/SafetyService.ts`). -/
structure AudioResp where
  distress_probability : ℚ
  emergency_triggered : Bool
deriving DecidableEq, Repr

/-- Response of `SafetyService.detectEmergency` (unnamed part_001). -/
structure DetectResp where
  is_emergency : Bool
  fused_risk_score : ℚ
deriving DecidableEq, Repr

/-- Outcomes of the external calls made during one detection cycle: the
Android permission prompt, the two/three network endpoints, and the
`AudioRecord` native module.  `.error ()` means the corresponding await
rejects (throws) at that point. -/
structure Env where
  micPermission : Bool
  motion : Except Unit MotionResp
  recInit : Except Unit Unit
  recStart : Except Unit Unit
  recStop : Except Unit Unit
  extract : Except Unit (List ℚ)
  audio : Except Unit AudioResp
  detect : Except Unit DetectResp

/-- Whether an `Except` result is a normal return. -/
def isOkE {ε α : Type} : Except ε α → Bool
  | .ok _ => true
  | .error _ => false

/-! ## Background pipeline (`BackgroundSafetyService.ts`)

Each `...Try` function is the body of a `try` block: it returns the
effects emitted up to the point where an await rejected (`.error`) or the
block completed (`.ok`).  The wrapper applies the `catch` clause. -/

/-- Body of the `try` in `startAudioAnalysis` (lines 78–114):
`AudioRecord.init`; `AudioRecord.start`; `sleep(3000)` (cannot reject);
`AudioRecord.stop`; `AudioUtils.extractMFCC`; `SafetyService.analyzeAudio`;
if `emergency_triggered`, `console.log` and
`BackgroundService.updateNotification`. -/
def startAudioAnalysisTry (env : Env) : List Effect × Except Unit Unit :=
  match env.recInit with
  | .error e => ([.micInit], .error e)
  | .ok _ =>
    match env.recStart with
    | .error e => ([.micInit, .micStart], .error e)
    | .ok _ =>
      match env.recStop with
      | .error e => ([.micInit, .micStart, .micStop], .error e)
      | .ok _ =>
        match env.extract with
        | .error e => ([.micInit, .micStart, .micStop], .error e)
        | .ok _ =>
          match env.audio with
          | .error e => ([.micInit, .micStart, .micStop, .netAudio], .error e)
          | .ok resp =>
            if resp.emergency_triggered then
              ([.micInit, .micStart, .micStop, .netAudio, .consoleLog, .updateNotif],
                .ok ())
            else
              ([.micInit, .micStart, .micStop, .netAudio], .ok ())

/-- `startAudioAnalysis` (lines 77–118): the try body with its `catch`
clause, which logs `console.error("[Background] Audio analysis failed")`
and swallows the error.  The second component is the result escaping the
function. -/
def startAudioAnalysis (env : Env) : List Effect × Except Unit Unit :=
  match startAudioAnalysisTry env with
  | (fx, .ok _) => (fx, .ok ())
  | (fx, .error _) => (fx ++ [.consoleErr], .ok ())

/-- Body of the `try` in `handleEmergencyCheck` (lines 58–71):
`console.log`; `SafetyService.checkMotion({accelerometer: accel,
gyroscope: 0})`; if `anomaly_detected`, `console.log` and
`startAudioAnalysis()` (whose own catch means its result is whatever
escapes it). -/
def handleEmergencyCheckTry (env : Env) (accel : Accel) :
    List Effect × Except Unit Unit :=
  match env.motion with
  | .error e => ([.consoleLog, .netMotion accel], .error e)
  | .ok resp =>
    if resp.anomaly_detected then
      let r := startAudioAnalysis env
      ([.consoleLog, .netMotion accel, .consoleLog] ++ r.1, r.2)
    else
      ([.consoleLog, .netMotion accel], .ok ())

/-- `handleEmergencyCheck` (lines 57–75): the try body with its `catch`
clause (`console.error('[Background] Error in emergency check')`). -/
def handleEmergencyCheck (env : Env) (accel : Accel) :
    List Effect × Except Unit Unit :=
  match handleEmergencyCheckTry env accel with
  | (fx, .ok _) => (fx, .ok ())
  | (fx, .error _) => (fx ++ [.consoleErr], .ok ())

/-- A cycle ends in failure when some stage of it rejected: the
motion-check call, or — once the anomaly gate passes — any stage of
`startAudioAnalysis` (recording, extraction, audio-analysis call). -/
def cycleFailed (env : Env) : Bool :=
  match env.motion with
  | .error _ => true
  | .ok resp => resp.anomaly_detected && !(isOkE (startAudioAnalysisTry env).2)

/-- Big-step monitor state for processing one sample to completion:
`processing` is `isProcessing`, `cycles` counts cycles opened, `dropped`
counts guarded-out samples. -/
structure BgMon where
  processing : Bool
  cycles : ℕ
  dropped : ℕ
deriving DecidableEq, Repr

/-- One whole subscription-callback run (lines 31–41) including the
awaited `handleEmergencyCheck`: the guard drops the sample while
`isProcessing`; a sample above threshold sets the flag, runs the check,
and the `isProcessing = false` on line 40 executes only if the awaited
call returned normally (an escaping rejection would leave the flag
set). -/
def processSample (s : BgMon) (a : Accel) (env : Env) : BgMon × List Effect :=
  if s.processing then
    ({ s with dropped := s.dropped + 1 }, [])
  else if a.crossesThreshold then
    match handleEmergencyCheck env a with
    | (fx, .ok _) => ({ s with processing := false, cycles := s.cycles + 1 }, fx)
    | (fx, .error _) => ({ s with processing := true, cycles := s.cycles + 1 }, fx)
  else
    (s, [])

/-! ## Foreground capture paths (`MapScreen`, `SosScreen`) -/

/-- Body of the `try` in `MapScreen.startAudioAnalysis` (part_005 lines
190–224, identical to the `SosScreen` variant of part_004 lines 48–88
up to its final alert): Android permission request with an early plain
`return` on denial (before `AudioRecord.init`); then init, start,
3-second sleep, stop, extract, `analyzeAudio`; on `emergency_triggered`
an `Alert.alert`. -/
def mapStartAudioAnalysisTry (env : Env) : List Effect × Except Unit Unit :=
  if !env.micPermission then
    ([.permRequest], .ok ())
  else
    match env.recInit with
    | .error e => ([.permRequest, .micInit], .error e)
    | .ok _ =>
      match env.recStart with
      | .error e => ([.permRequest, .micInit, .micStart], .error e)
      | .ok _ =>
        match env.recStop with
        | .error e => ([.permRequest, .micInit, .micStart, .micStop], .error e)
        | .ok _ =>
          match env.extract with
          | .error e => ([.permRequest, .micInit, .micStart, .micStop], .error e)
          | .ok _ =>
            match env.audio with
            | .error e =>
              ([.permRequest, .micInit, .micStart, .micStop, .netAudio], .error e)
            | .ok resp =>
              if resp.emergency_triggered then
                ([.permRequest, .micInit, .micStart, .micStop, .netAudio,
                  .alertDialog], .ok ())
              else
                ([.permRequest, .micInit, .micStart, .micStop, .netAudio], .ok ())

/-- `MapScreen.startAudioAnalysis` with its `catch` clause
(`console.log("Audio analysis failed")`). -/
def mapStartAudioAnalysis (env : Env) : List Effect × Except Unit Unit :=
  match mapStartAudioAnalysisTry env with
  | (fx, .ok _) => (fx, .ok ())
  | (fx, .error _) => (fx ++ [.consoleLog], .ok ())

/-- The manual SOS handler of `MapScreen` (part_005 lines 285–303) and of
the `SosScreen` variant in part_004 (lines 95–116):
`SafetyService.checkMotion` with the synthetic `{x:0,y:0,z:0}` sample,
then `if (response) await startAudioAnalysis()` — the received response
object is always truthy, so the audio path runs whenever the call
succeeds, regardless of `anomaly_detected`; the `catch` does
`console.error` and `Alert.alert("SOS Failed")`. -/
def manualHandleEmergency (env : Env) : List Effect :=
  match env.motion with
  | .error _ => [.netMotion Accel.zero, .consoleErr, .alertDialog]
  | .ok _ => [.netMotion Accel.zero] ++ (mapStartAudioAnalysis env).1

/-- Body of the `try` in `SosScreen.handleEmergency`
(`screens/SosScreen.tsx` lines 12–92): permission request with
`Alert.alert("Permission Error")` and return on denial (before
`AudioRecord.init`); then init, start, 3-second wait, stop, extract;
one fused `SafetyService.detectEmergency` request carrying
`accelerometer_data: {x:0,y:0,z:0}`; decision: `is_emergency` →
`Alert.alert("Emergency Triggered")`, else `fused_risk_score > 0.4` →
`Alert.alert("Alert Sent")`, else status text only. -/
def sosHandleEmergencyTry (env : Env) : List Effect × Except Unit Unit :=
  if !env.micPermission then
    ([.permRequest, .alertDialog], .ok ())
  else
    match env.recInit with
    | .error e => ([.permRequest, .micInit], .error e)
    | .ok _ =>
      match env.recStart with
      | .error e => ([.permRequest, .micInit, .micStart], .error e)
      | .ok _ =>
        match env.recStop with
        | .error e => ([.permRequest, .micInit, .micStart, .micStop], .error e)
        | .ok _ =>
          match env.extract with
          | .error e => ([.permRequest, .micInit, .micStart, .micStop], .error e)
          | .ok _ =>
            match env.detect with
            | .error e =>
              ([.permRequest, .micInit, .micStart, .micStop,
                .netDetect Accel.zero], .error e)
            | .ok resp =>
              if resp.is_emergency then
                ([.permRequest, .micInit, .micStart, .micStop,
                  .netDetect Accel.zero, .alertDialog], .ok ())
              else if 2/5 < resp.fused_risk_score then
                ([.permRequest, .micInit, .micStart, .micStop,
                  .netDetect Accel.zero, .alertDialog], .ok ())
              else
                ([.permRequest, .micInit, .micStart, .micStop,
                  .netDetect Accel.zero], .ok ())

/-- `SosScreen.handleEmergency` with its `catch` clause (`console.error`
and `Alert.alert("SOS Failed")`). -/
def sosHandleEmergency (env : Env) : List Effect :=
  match sosHandleEmergencyTry env with
  | (fx, .ok _) => fx
  | (fx, .error _) => fx ++ [.consoleErr, .alertDialog]

/-! ## HTTP client (`api/client.ts` and the embedded 15-second variant) -/

/-- How the underlying `fetch` settles: a transport failure (rejected
promise) or an HTTP response with its `ok` flag and parsed JSON payload
(`parseJson` yields `null` for an empty body, hence `Option`; payload
values are abstract tokens, modelled by `ℕ`). -/
inductive FetchResult where
  | transportErr
  | response (ok : Bool) (payload : Option ℕ)
deriving DecidableEq, Repr

/-- Errors thrown out of `request`. -/
inductive ReqError where
  | timeout
  | network
  | http
deriving DecidableEq, Repr

/-- `api/client.ts` line 35: `setTimeout(() => controller.abort(), 5000)`. -/
def clientTimeoutMs : ℕ := 5000

/-- The embedded client variant in `BackgroundSafetyService.ts` line 166:
`setTimeout(() => controller.abort(), 15000)`. -/
def bgClientTimeoutMs : ℕ := 15000

/-- `request` (`api/client.ts` lines 23–60, embedded variant lines
154–197): `fetchTime` is the time until the fetch would settle; the abort
timer fires at `timeoutMs`, so a fetch taking at least that long is
aborted and the `catch` rethrows (as a timeout message in the embedded
variant).  Otherwise a rejected fetch rethrows as a network error, and a
response with `!response.ok` throws; only an ok response returns its
payload. -/
def request (timeoutMs fetchTime : ℕ) (res : FetchResult) :
    Except ReqError (Option ℕ) :=
  if timeoutMs ≤ fetchTime then
    .error .timeout
  else
    match res with
    | .transportErr => .error .network
    | .response ok payload => if ok then .ok payload else .error .http

/-! ## Feature extraction (`utils/AudioUtils.ts`) -/

/-- `AudioUtils.extractMFCC` (part_006 lines 13–22):
`Array.from({ length: 13 }, () => Math.random() * 20 - 10)`.
`rand` models the successive `Math.random()` draws, each in `[0, 1)`. -/
def extractMFCC (rand : ℕ → ℚ) : List ℚ :=
  (List.range 13).map (fun i => rand i * 20 - 10)

/-! ## Background execution host (`BackgroundSafetyRunner`, lines 120–131) -/

/-- Host state: the `BackgroundService.isRunning()` flag and the number
of live monitoring-task instances (`veryIntensiveTask` runs its
keep-alive loop `while (BackgroundService.isRunning())`, so a task ends
once the flag is cleared). -/
structure HostState where
  running : Bool
  tasks : ℕ
deriving DecidableEq, Repr

/-- Calls on `BackgroundSafetyRunner`. -/
inductive HostOp where
  | start
  | stop
deriving DecidableEq, Repr

/-- Before the first call: not running, no task. -/
def HostState.init : HostState := ⟨false, 0⟩

/-- `BackgroundSafetyRunner.start` runs `BackgroundService.start` only
under `if (!BackgroundService.isRunning())` (line 122), launching one new
task; `stop` clears the flag, upon which the running task's
`while (BackgroundService.isRunning())` loop exits and the task ends. -/
def HostState.step (s : HostState) : HostOp → HostState
  | .start => if s.running then s else ⟨true, s.tasks + 1⟩
  | .stop => ⟨false, 0⟩

/-- State after a sequence of runner calls. -/
def HostState.run (s : HostState) (ops : List HostOp) : HostState :=
  ops.foldl HostState.step s

/-! ## Concrete environments used as test inputs -/

/-- All external calls succeed, the motion check reports no anomaly, and
nothing downstream triggers. -/
def envClear : Env :=
  { micPermission := true
    motion := .ok ⟨1/10, false⟩
    recInit := .ok ()
    recStart := .ok ()
    recStop := .ok ()
    extract := .ok [0]
    audio := .ok ⟨1/10, false⟩
    detect := .ok ⟨false, 1/10⟩ }

/-- Like `envClear` but the motion-check network call rejects. -/
def envMotionFail : Env :=
  { envClear with motion := .error () }

/-- Like `envClear` but the anomaly gate passes and the audio-analysis
network call rejects. -/
def envAudioFail : Env :=
  { envClear with motion := .ok ⟨9/10, true⟩, audio := .error () }

/-- Microphone permission denied; every other external call would
succeed, and the motion check reports an anomaly. -/
def envDenied : Env :=
  { envClear with micPermission := false, motion := .ok ⟨9/10, true⟩ }

/-! ## Helper lemmas -/

lemma MonState.init_inv : MonState.init.inv := by decide

lemma MonState.step_inv (s : MonState) (e : MonEv) (h : s.inv) :
    (s.step e).inv := by
  cases e with
  | sample a =>
    by_cases hp : s.processing <;>
      simp [MonState.step, MonState.inv, hp] at h ⊢ <;>
      [skip; split] <;> simp [h, hp]
  | finish =>
    by_cases hp : s.processing <;>
      simp [MonState.step, MonState.inv, hp] at h ⊢ <;> simp [h]

lemma MonState.trace_inv (s : MonState) (evs : List MonEv) (h : s.inv) :
    ∀ t ∈ s.trace evs, t.inv := by
  induction evs generalizing s with
  | nil => simpa [MonState.trace] using h
  | cons e es ih =>
    intro t ht
    rcases (by simpa [MonState.trace] using ht) with rfl | hmem
    · exact h
    · exact ih _ (s.step_inv e h) t hmem

lemma Accel.crossesThreshold_iff_sqrt (a : Accel) :
    a.crossesThreshold = true ↔ (15 : ℝ) < Real.sqrt ((a.magSq : ℝ)) := by
  rw [Real.lt_sqrt (by norm_num : (0 : ℝ) ≤ 15)]
  have h15 : ((15 : ℝ)) ^ 2 = ((225 : ℚ) : ℝ) := by norm_num
  rw [h15, Rat.cast_lt]
  simp [Accel.crossesThreshold]

lemma startAudioAnalysis_ok (env : Env) : (startAudioAnalysis env).2 = .ok () := by
  unfold startAudioAnalysis
  rcases startAudioAnalysisTry env with ⟨fx, r⟩
  cases r <;> rfl

lemma handleEmergencyCheck_ok (env : Env) (a : Accel) :
    (handleEmergencyCheck env a).2 = .ok () := by
  unfold handleEmergencyCheck
  rcases handleEmergencyCheckTry env a with ⟨fx, r⟩
  cases r <;> rfl

lemma processSample_resets (s : BgMon) (a : Accel) (env : Env)
    (hp : s.processing = false) :
    (processSample s a env).1.processing = false := by
  unfold processSample
  simp only [hp, Bool.false_eq_true, if_false]
  cases hc : a.crossesThreshold
  · simp [hc, hp]
  · have h := handleEmergencyCheck_ok env a
    rcases hh : handleEmergencyCheck env a with ⟨fx, r⟩
    rw [hh] at h
    simp only at h
    subst h
    simp [hc, hh]

lemma processSample_opens (s : BgMon) (a : Accel) (env : Env)
    (hp : s.processing = false) (hc : a.crossesThreshold = true) :
    (processSample s a env).1.cycles = s.cycles + 1 := by
  unfold processSample
  simp only [hp, Bool.false_eq_true, if_false]
  have h := handleEmergencyCheck_ok env a
  rcases hh : handleEmergencyCheck env a with ⟨fx, r⟩
  rw [hh] at h
  simp only at h
  subst h
  simp [hc, hh]

/-! ## Claim theorems -/

/-- C1 — Mutual exclusion of detection cycles: along every event
sequence delivered to the monitor, at most one cycle is ever non-idle;
a sample arriving while `isProcessing` is set only bumps the dropped
counter (the state is otherwise unchanged and nothing is queued); and a
cycle can only open from a state in which no cycle is in progress. -/
theorem mutual_exclusion_of_cycles :
    (∀ evs : List MonEv, ∀ t ∈ MonState.init.trace evs, t.active ≤ 1)
    ∧ (∀ (s : MonState) (a : Accel), s.processing = true →
        s.step (.sample a) = { s with dropped := s.dropped + 1 })
    ∧ (∀ (s : MonState) (e : MonEv), s.active < (s.step e).active →
        s.processing = false) := by
  refine ⟨?_, ?_, ?_⟩
  · intro evs t ht
    have h := MonState.trace_inv MonState.init evs MonState.init_inv t ht
    unfold MonState.inv at h
    split at h <;> omega
  · intro s a hp
    simp [MonState.step, hp]
  · intro s e h
    cases e with
    | sample a =>
      by_cases hp : s.processing
      · simp [MonState.step, hp] at h
      · simpa using hp
    | finish =>
      by_cases hp : s.processing
      · simp [MonState.step, hp] at h
        omega
      · simp [MonState.step, hp] at h

/-- Witness for C1: a high-magnitude sample delivered while a cycle is
in progress is dropped. -/
theorem mutual_exclusion_of_cycles_witness :
    MonState.step ⟨true, 1, 0⟩ (.sample ⟨10, 10, 10⟩) = ⟨true, 1, 1⟩ :=
  mutual_exclusion_of_cycles.2.1 ⟨true, 1, 0⟩ ⟨10, 10, 10⟩ rfl

/-- C2 — Trigger condition: from an idle monitor, a sample opens a cycle
exactly when `sqrt (x² + y² + z²) > 15`; the gravity-only sample
`{0, 0, 9.8}` and an exact-boundary sample of magnitude 15 never trigger,
while `{10, 10, 10}` (magnitude ≈ 17.3) does. -/
theorem trigger_condition :
    (∀ (s : MonState) (a : Accel), s.processing = false →
        ((s.step (.sample a)).active = s.active + 1 ↔
          (15 : ℝ) < Real.sqrt ((a.magSq : ℝ))))
    ∧ MonState.init.step (.sample ⟨0, 0, 49/5⟩) = MonState.init
    ∧ MonState.init.step (.sample ⟨9, 12, 0⟩) = MonState.init
    ∧ (MonState.init.step (.sample ⟨10, 10, 10⟩)).active = 1 := by
  refine ⟨?_, ?_, ?_, ?_⟩
  · intro s a hp
    rw [← Accel.crossesThreshold_iff_sqrt a]
    cases hc : a.crossesThreshold <;> simp [MonState.step, hp, hc]
  · have hc : Accel.crossesThreshold ⟨0, 0, 49/5⟩ = false := by
      unfold Accel.crossesThreshold Accel.magSq
      norm_num
    simp [MonState.step, MonState.init, hc]
  · have hc : Accel.crossesThreshold ⟨9, 12, 0⟩ = false := by
      unfold Accel.crossesThreshold Accel.magSq
      norm_num
    simp [MonState.step, MonState.init, hc]
  · have hc : Accel.crossesThreshold ⟨10, 10, 10⟩ = true := by
      unfold Accel.crossesThreshold Accel.magSq
      norm_num
    simp [MonState.step, MonState.init, hc]

/-- Witness for C2: the sample `{10, 10, 10}` opens a cycle from the
idle initial state, equivalently its magnitude exceeds 15. -/
theorem trigger_condition_witness :
    (MonState.init.step (.sample ⟨10, 10, 10⟩)).active = MonState.init.active + 1
      ↔ (15 : ℝ) < Real.sqrt ((Accel.magSq ⟨10, 10, 10⟩ : ℝ)) :=
  trigger_condition.1 MonState.init ⟨10, 10, 10⟩ rfl

/-- C3 — Failure containment and return to idle: for every environment
(including ones in which the motion-check call, recording, extraction or
audio-analysis call reject), `handleEmergencyCheck` and
`startAudioAnalysis` return normally — no rejection escapes to the sensor
callback — so the callback's `isProcessing = false` always runs, and a
later above-threshold sample opens a fresh cycle. -/
theorem failure_containment :
    (∀ (env : Env) (a : Accel), (handleEmergencyCheck env a).2 = .ok ())
    ∧ (∀ env : Env, (startAudioAnalysis env).2 = .ok ())
    ∧ (∀ (s : BgMon) (a : Accel) (env : Env), s.processing = false →
        (processSample s a env).1.processing = false)
    ∧ (∀ (s : BgMon) (a : Accel) (env env2 : Env), s.processing = false →
        a.crossesThreshold = true →
        (processSample (processSample s a env).1 a env2).1.cycles
          = s.cycles + 2) := by
  refine ⟨handleEmergencyCheck_ok, startAudioAnalysis_ok, processSample_resets, ?_⟩
  intro s a env env2 hp hc
  have h1 := processSample_resets s a env hp
  have h2 := processSample_opens s a env hp hc
  have h3 := processSample_opens (processSample s a env).1 a env2 h1 hc
  omega

/-- Witness for C3: a cycle whose motion-check call rejects leaves the
monitor idle, and a second high sample under a failing audio stage still
opens (and closes) a second cycle. -/
theorem failure_containment_witness :
    (processSample ⟨false, 0, 0⟩ ⟨10, 10, 10⟩ envMotionFail).1.processing = false
    ∧ (processSample (processSample ⟨false, 0, 0⟩ ⟨10, 10, 10⟩ envMotionFail).1
        ⟨10, 10, 10⟩ envAudioFail).1.cycles = 2 :=
  ⟨failure_containment.2.2.1 ⟨false, 0, 0⟩ ⟨10, 10, 10⟩ envMotionFail rfl,
    failure_containment.2.2.2 ⟨false, 0, 0⟩ ⟨10, 10, 10⟩ envMotionFail envAudioFail
      rfl (by unfold Accel.crossesThreshold Accel.magSq; norm_num)⟩

/-- C4 — Network timeout is a failure, never a decision: both client
timeouts (5000 ms in `api/client.ts`, 15000 ms in the embedded variant)
lie in the 5000–15000 ms band; a fetch that has not settled by the
timeout is aborted and `request` throws; a transport failure or a non-ok
HTTP response also throws; and a payload is returned only for an ok
response that settled before the timeout. -/
theorem request_timeout_policy :
    (5000 ≤ clientTimeoutMs ∧ clientTimeoutMs ≤ 15000)
    ∧ (5000 ≤ bgClientTimeoutMs ∧ bgClientTimeoutMs ≤ 15000)
    ∧ (∀ (t k : ℕ) (res : FetchResult), request t (t + k) res = .error .timeout)
    ∧ (∀ t ft : ℕ, isOkE (request t ft .transportErr) = false)
    ∧ (∀ (t ft : ℕ) (p : Option ℕ),
        isOkE (request t ft (.response false p)) = false)
    ∧ (∀ (t ft : ℕ) (res : FetchResult) (p : Option ℕ),
        request t ft res = .ok p → res = .response true p ∧ ft < t) := by
  refine ⟨by decide, by decide, ?_, ?_, ?_, ?_⟩
  · intro t k res
    simp [request, Nat.le_add_right]
  · intro t ft
    unfold request
    split
    · rfl
    · rfl
  · intro t ft p
    unfold request
    split
    · rfl
    · rfl
  · intro t ft res p h
    unfold request at h
    split at h
    · cases h
    · cases res with
      | transportErr => cases h
      | response ok payload =>
        cases ok with
        | false => simp at h
        | true =>
          simp at h
          exact ⟨by rw [h], by omega⟩

/-- Witness for C4: a request that settles ok at time 0 under the 5000 ms
timeout indeed came from an ok response arriving before the timeout. -/
theorem request_timeout_policy_witness :
    FetchResult.response true (some 7) = .response true (some 7) ∧ 0 < 5000 :=
  request_timeout_policy.2.2.2.2.2 5000 0 (.response true (some 7)) (some 7) rfl

/-- When some stage of the try body of `startAudioAnalysis` rejects, its
catch clause emits exactly one `console.error` and the whole run emits no
user-visible effect. -/
lemma startAudioAnalysis_fail (env : Env)
    (h : isOkE (startAudioAnalysisTry env).2 = false) :
    (startAudioAnalysis env).1.count .consoleErr = 1
    ∧ (startAudioAnalysis env).1.filter Effect.userVisible = [] := by
  obtain ⟨perm, motion, ri, rs, rst, ex, au, de⟩ := env
  rcases au with u | ⟨d, trig⟩
  · cases ri <;> cases rs <;> cases rst <;> cases ex <;>
      simp_all [startAudioAnalysis, startAudioAnalysisTry, isOkE,
        Effect.userVisible, List.count_cons]
  · cases trig <;> cases ri <;> cases rs <;> cases rst <;> cases ex <;>
      simp_all [startAudioAnalysis, startAudioAnalysisTry, isOkE,
        Effect.userVisible, List.count_cons]

/-- The effect trace of `handleEmergencyCheck`, in closed form. -/
lemma handleEmergencyCheck_eq (env : Env) (a : Accel) :
    (handleEmergencyCheck env a).1 =
      match env.motion with
      | .error _ => [.consoleLog, .netMotion a, .consoleErr]
      | .ok resp =>
        if resp.anomaly_detected then
          [.consoleLog, .netMotion a, .consoleLog] ++ (startAudioAnalysis env).1
        else
          [.consoleLog, .netMotion a] := by
  unfold handleEmergencyCheck handleEmergencyCheckTry
  cases hm : env.motion with
  | error e => rfl
  | ok resp =>
    cases ha : resp.anomaly_detected
    · simp [ha]
    · have hok := startAudioAnalysis_ok env
      rcases hs : startAudioAnalysis env with ⟨fx, r⟩
      rw [hs] at hok
      simp only at hok
      subst hok
      simp [ha, hs]

/-- C5 counterexample — a failed cycle with no user-visible signal: when
the motion-check call rejects, the cycle ends in failure yet the run
emits no notification and no dialog (only console output). -/
theorem failed_cycle_silent_counterexample :
    cycleFailed envMotionFail = true
    ∧ (handleEmergencyCheck envMotionFail ⟨10, 10, 10⟩).1.filter
        Effect.userVisible = [] := by
  exact ⟨rfl, rfl⟩

/-- C5 amended — failed cycles are silent to the user: every background
cycle that ends in failure emits exactly one `console.error` diagnostic
and no user-visible effect (no notification update, no alert dialog);
there is no notifier failure variant. -/
theorem failed_cycle_console_only :
    ∀ (env : Env) (a : Accel), cycleFailed env = true →
      (handleEmergencyCheck env a).1.count .consoleErr = 1
      ∧ (handleEmergencyCheck env a).1.filter Effect.userVisible = [] := by
  intro env a h
  rw [handleEmergencyCheck_eq]
  unfold cycleFailed at h
  cases hm : env.motion with
  | error e =>
    simp [Effect.userVisible, List.count_cons]
  | ok resp =>
    rw [hm] at h
    simp only [Bool.and_eq_true, Bool.not_eq_true'] at h
    obtain ⟨h1, h2⟩ := h
    have hs := startAudioAnalysis_fail env h2
    simp [h1, List.count_append, List.filter_append, hs.1, hs.2,
      Effect.userVisible, List.count_cons]

/-- Witness for the amended C5: the motion-failure cycle emits exactly
one console diagnostic and nothing user-visible. -/
theorem failed_cycle_console_only_witness :
    (handleEmergencyCheck envMotionFail ⟨10, 10, 10⟩).1.count .consoleErr = 1
    ∧ (handleEmergencyCheck envMotionFail ⟨10, 10, 10⟩).1.filter
        Effect.userVisible = [] :=
  failed_cycle_console_only envMotionFail ⟨10, 10, 10⟩ rfl

/-- C6 counterexample — the background capture opens the microphone
without permission: with the microphone permission denied,
`BackgroundSafetyService.startAudioAnalysis` still calls
`AudioRecord.start` (it performs no permission check at all). -/
theorem permission_gate_counterexample :
    envDenied.micPermission = false
    ∧ Effect.micStart ∈ (startAudioAnalysis envDenied).1 := by
  refine ⟨rfl, ?_⟩
  simp [startAudioAnalysis, startAudioAnalysisTry, envDenied, envClear]

/-- C6 amended — the permission gate holds only on the foreground paths:
`MapScreen.startAudioAnalysis` and `SosScreen.handleEmergency` abort
before `AudioRecord.init`/`AudioRecord.start` when the permission is
denied, but the background `startAudioAnalysis` ignores the permission
state entirely and calls `AudioRecord.start` whenever `AudioRecord.init`
returns. -/
theorem permission_gate_amended :
    (∀ env : Env, env.micPermission = false →
        (mapStartAudioAnalysis env).1 = [.permRequest]
        ∧ sosHandleEmergency env = [.permRequest, .alertDialog])
    ∧ (∀ (env : Env) (b : Bool),
        startAudioAnalysis { env with micPermission := b }
          = startAudioAnalysis env)
    ∧ (∀ env : Env, env.recInit = .ok () →
        Effect.micStart ∈ (startAudioAnalysis env).1) := by
  refine ⟨?_, ?_, ?_⟩
  · intro env h
    constructor
    · unfold mapStartAudioAnalysis mapStartAudioAnalysisTry
      simp [h]
    · unfold sosHandleEmergency sosHandleEmergencyTry
      simp [h]
  · intro env b
    rfl
  · intro env h
    obtain ⟨perm, motion, ri, rs, rst, ex, au, de⟩ := env
    simp only at h
    subst h
    rcases au with u | ⟨d, trig⟩
    · cases rs <;> cases rst <;> cases ex <;>
        simp [startAudioAnalysis, startAudioAnalysisTry]
    · cases trig <;> cases rs <;> cases rst <;> cases ex <;>
        simp [startAudioAnalysis, startAudioAnalysisTry]

/-- Witness for the amended C6: with permission denied the MapScreen
capture stops at the permission request, while the background capture of
the all-ok environment reaches `AudioRecord.start`. -/
theorem permission_gate_amended_witness :
    (mapStartAudioAnalysis envDenied).1 = [.permRequest]
    ∧ Effect.micStart ∈ (startAudioAnalysis envClear).1 :=
  ⟨(permission_gate_amended.1 envDenied rfl).1,
    permission_gate_amended.2.2 envClear rfl⟩

/-- C7 — Microphone release on every exit path: whenever
`AudioRecord.init` and `AudioRecord.start` succeed, each capture routine
(background `startAudioAnalysis`, `MapScreen.startAudioAnalysis`,
`SosScreen.handleEmergency`) calls `AudioRecord.stop` exactly once,
immediately after the fixed 3-second window and before any
extraction/network stage can fail. -/
theorem mic_release_on_every_path :
    ∀ env : Env, env.recInit = .ok () → env.recStart = .ok () →
      ((startAudioAnalysis env).1.take 3 = [.micInit, .micStart, .micStop]
        ∧ (startAudioAnalysis env).1.count .micStop = 1)
      ∧ (env.micPermission = true →
          ((mapStartAudioAnalysis env).1.take 4
              = [.permRequest, .micInit, .micStart, .micStop]
            ∧ (mapStartAudioAnalysis env).1.count .micStop = 1)
          ∧ ((sosHandleEmergency env).take 4
              = [.permRequest, .micInit, .micStart, .micStop]
            ∧ (sosHandleEmergency env).count .micStop = 1)) := by
  intro env h1 h2
  obtain ⟨perm, motion, ri, rs, rst, ex, au, de⟩ := env
  simp only at h1 h2
  subst h1
  subst h2
  constructor
  · rcases au with u | ⟨d, trig⟩
    · cases rst <;> cases ex <;>
        simp [startAudioAnalysis, startAudioAnalysisTry, List.count_cons]
    · cases trig <;> cases rst <;> cases ex <;>
        simp [startAudioAnalysis, startAudioAnalysisTry, List.count_cons]
  · intro hp
    subst hp
    constructor
    · rcases au with u | ⟨d, trig⟩
      · cases rst <;> cases ex <;>
          simp [mapStartAudioAnalysis, mapStartAudioAnalysisTry, List.count_cons]
      · cases trig <;> cases rst <;> cases ex <;>
          simp [mapStartAudioAnalysis, mapStartAudioAnalysisTry, List.count_cons]
    · rcases de with u | ⟨isem, score⟩
      · cases rst <;> cases ex <;>
          simp [sosHandleEmergency, sosHandleEmergencyTry, List.count_cons]
      · by_cases hsc : (2 : ℚ)/5 < score <;> cases isem <;> cases rst <;> cases ex <;>
          simp [sosHandleEmergency, sosHandleEmergencyTry, List.count_cons, hsc]

/-- Witness for C7: in the all-ok environment the background capture's
trace begins init–start–stop and stops the recorder exactly once. -/
theorem mic_release_witness :
    (startAudioAnalysis envClear).1.take 3 = [.micInit, .micStart, .micStop]
    ∧ (startAudioAnalysis envClear).1.count .micStop = 1 :=
  (mic_release_on_every_path envClear rfl rfl).1

/-- C8 — Feature-vector contract: under the `Math.random()` contract
(each draw in `[0, 1)`), `extractMFCC` returns exactly 13 values, the
length is the same on every call, and every element lies in `[-10, 10)`
(in particular the values are finite rationals — no NaN or infinity). -/
theorem mfcc_contract (rand : ℕ → ℚ) (h : ∀ i, 0 ≤ rand i ∧ rand i < 1) :
    (extractMFCC rand).length = 13
    ∧ (∀ rand2 : ℕ → ℚ, (extractMFCC rand2).length = (extractMFCC rand).length)
    ∧ ∀ v ∈ extractMFCC rand, -10 ≤ v ∧ v < 10 := by
  refine ⟨by simp [extractMFCC], fun rand2 => by simp [extractMFCC], ?_⟩
  intro v hv
  simp only [extractMFCC, List.mem_map, List.mem_range] at hv
  obtain ⟨i, hi, rfl⟩ := hv
  obtain ⟨h0, h1⟩ := h i
  constructor <;> linarith

/-- Witness for C8: the constant draw 1/2 yields 13 values in range. -/
theorem mfcc_contract_witness :
    (extractMFCC (fun _ => 1/2)).length = 13
    ∧ ∀ v ∈ extractMFCC (fun _ => 1/2), -10 ≤ v ∧ v < 10 :=
  ⟨(mfcc_contract (fun _ => 1/2) (fun _ => by norm_num)).1,
    (mfcc_contract (fun _ => 1/2) (fun _ => by norm_num)).2.2⟩

/-- The MapScreen capture routine never issues the motion-check request. -/
lemma netMotion_not_mem_map (env : Env) (a : Accel) :
    Effect.netMotion a ∉ (mapStartAudioAnalysis env).1 := by
  obtain ⟨perm, motion, ri, rs, rst, ex, au, de⟩ := env
  cases perm
  · simp [mapStartAudioAnalysis, mapStartAudioAnalysisTry]
  · rcases au with u | ⟨d, trig⟩
    · cases ri <;> cases rs <;> cases rst <;> cases ex <;>
        simp [mapStartAudioAnalysis, mapStartAudioAnalysisTry]
    · cases trig <;> cases ri <;> cases rs <;> cases rst <;> cases ex <;>
        simp [mapStartAudioAnalysis, mapStartAudioAnalysisTry]

/-- Any fused detect request issued by `SosScreen.handleEmergency`
carries the synthetic zero sample. -/
lemma netDetect_mem_sos (env : Env) (a : Accel)
    (h : Effect.netDetect a ∈ sosHandleEmergency env) : a = Accel.zero := by
  obtain ⟨perm, motion, ri, rs, rst, ex, au, de⟩ := env
  cases perm
  · simp [sosHandleEmergency, sosHandleEmergencyTry] at h
  · rcases de with u | ⟨isem, score⟩
    · cases ri <;> cases rs <;> cases rst <;> cases ex <;>
        simp_all [sosHandleEmergency, sosHandleEmergencyTry]
    · cases isem <;> cases ri <;> cases rs <;> cases rst <;> cases ex <;>
        simp only [sosHandleEmergency, sosHandleEmergencyTry] at h <;>
        split_ifs at h <;> simp_all

/-- The background capture always reaches `AudioRecord.init`. -/
lemma micInit_mem_startAudio (env : Env) :
    Effect.micInit ∈ (startAudioAnalysis env).1 := by
  obtain ⟨perm, motion, ri, rs, rst, ex, au, de⟩ := env
  rcases au with u | ⟨d, trig⟩
  · cases ri <;> cases rs <;> cases rst <;> cases ex <;>
      simp [startAudioAnalysis, startAudioAnalysisTry]
  · cases trig <;> cases ri <;> cases rs <;> cases rst <;> cases ex <;>
      simp [startAudioAnalysis, startAudioAnalysisTry]

/-- With the permission granted, the MapScreen capture reaches
`AudioRecord.init`. -/
lemma micInit_mem_map (env : Env) (hp : env.micPermission = true) :
    Effect.micInit ∈ (mapStartAudioAnalysis env).1 := by
  obtain ⟨perm, motion, ri, rs, rst, ex, au, de⟩ := env
  simp only at hp
  subst hp
  rcases au with u | ⟨d, trig⟩
  · cases ri <;> cases rs <;> cases rst <;> cases ex <;>
      simp [mapStartAudioAnalysis, mapStartAudioAnalysisTry]
  · cases trig <;> cases ri <;> cases rs <;> cases rst <;> cases ex <;>
      simp [mapStartAudioAnalysis, mapStartAudioAnalysisTry]

/-- C9 counterexample — the manual path is not the sensor path: in the
environment where every call succeeds and the motion check reports no
anomaly, the manual SOS handler still performs the audio-capture stage
(`AudioRecord.start`), while the sensor-driven pipeline on the same
synthetic sample and same stage outcomes skips it. -/
theorem manual_path_counterexample :
    Effect.micStart ∈ manualHandleEmergency envClear
    ∧ Effect.micStart ∉ (handleEmergencyCheck envClear Accel.zero).1 := by
  constructor
  · simp [manualHandleEmergency, mapStartAudioAnalysis,
      mapStartAudioAnalysisTry, envClear]
  · simp [handleEmergencyCheck, handleEmergencyCheckTry, envClear]

/-- C9 amended — the manual triggers do submit the synthetic zero sample,
but then diverge from the sensor path: the `checkMotion`-based manual
handler bypasses the anomaly gate (audio capture runs whenever the
motion call succeeds, even with `anomaly_detected = false`, where the
sensor path captures exactly when the anomaly is detected), and the
`SosScreen` variant uses the single fused `detectEmergency` endpoint
(also with the zero sample) instead of the two-stage pipeline. -/
theorem manual_path_amended :
    (∀ (env : Env) (a : Accel),
        Effect.netMotion a ∈ manualHandleEmergency env → a = Accel.zero)
    ∧ (∀ (env : Env) (a : Accel),
        Effect.netDetect a ∈ sosHandleEmergency env → a = Accel.zero)
    ∧ (∀ (env : Env) (resp : MotionResp), env.motion = .ok resp →
        ((Effect.micInit ∈ (handleEmergencyCheck env Accel.zero).1
            ↔ resp.anomaly_detected = true)
          ∧ (env.micPermission = true →
              Effect.micInit ∈ manualHandleEmergency env))) := by
  refine ⟨?_, netDetect_mem_sos, ?_⟩
  · intro env a h
    unfold manualHandleEmergency at h
    cases hm : env.motion with
    | error e => rw [hm] at h; simp_all
    | ok resp =>
      rw [hm] at h
      have h2 : a = Accel.zero
          ∨ Effect.netMotion a ∈ (mapStartAudioAnalysis env).1 := by
        simpa using h
      rcases h2 with h1 | h2
      · exact h1
      · exact absurd h2 (netMotion_not_mem_map env a)
  · intro env resp hm
    constructor
    · rw [handleEmergencyCheck_eq, hm]
      cases ha : resp.anomaly_detected
      · simp [ha]
      · simp [ha, micInit_mem_startAudio env]
    · intro hp
      unfold manualHandleEmergency
      rw [hm]
      simp [micInit_mem_map env hp]

/-- Witness for the amended C9: in the all-ok no-anomaly environment the
sensor path performs no capture while the manual path does. -/
theorem manual_path_amended_witness :
    ((Effect.micInit ∈ (handleEmergencyCheck envClear Accel.zero).1
        ↔ (⟨1/10, false⟩ : MotionResp).anomaly_detected = true)
      ∧ Effect.micInit ∈ manualHandleEmergency envClear) :=
  ⟨(manual_path_amended.2.2 envClear ⟨1/10, false⟩ rfl).1,
    (manual_path_amended.2.2 envClear ⟨1/10, false⟩ rfl).2 rfl⟩

/-- Along any run of the host, the task count tracks the running flag. -/
lemma host_run_inv (ops : List HostOp) :
    ∀ s : HostState, s.tasks = (if s.running then 1 else 0) →
      (s.run ops).tasks = if (s.run ops).running then 1 else 0 := by
  induction ops with
  | nil => intro s h; simpa [HostState.run] using h
  | cons op ops ih =>
    intro s h
    have hstep : (s.step op).tasks = if (s.step op).running then 1 else 0 := by
      cases op with
      | start =>
        by_cases hr : s.running
        · simpa [HostState.step, hr] using h
        · simp [HostState.step, hr] at h ⊢
          omega
      | stop => simp [HostState.step]
    simpa [HostState.run, List.foldl] using ih (s.step op) hstep

/-- C10 — Idempotent host start: from the initial host state, any
sequence of `start`/`stop` calls leaves at most one live monitoring
task; `start` while running is a no-op; and `start` right after `stop`
launches exactly one fresh task. -/
theorem host_start_idempotent :
    (∀ ops : List HostOp, (HostState.init.run ops).tasks ≤ 1)
    ∧ (∀ s : HostState, s.running = true → s.step .start = s)
    ∧ (∀ s : HostState, (s.step .stop).step .start = ⟨true, 1⟩) := by
  refine ⟨?_, ?_, ?_⟩
  · intro ops
    have h := host_run_inv ops HostState.init rfl
    rw [h]
    split <;> omega
  · intro s h
    simp [HostState.step, h]
  · intro s
    rfl

/-- Witness for C10: a second `start` on the running single-task state
changes nothing. -/
theorem host_start_idempotent_witness :
    HostState.step ⟨true, 1⟩ .start = ⟨true, 1⟩ :=
  host_start_idempotent.2.1 ⟨true, 1⟩ rfl
